import Mathlib

/-!
Verification of the Flask + OpenTelemetry demo application (`src/app/app.py`).

The application is embedded shallowly: the telemetry side effects of each
handler (spans opened/closed, counter increments, histogram records) are made
explicit as a `TelemetryState` threaded through the handler bodies, and Python
exceptions are modelled with `Except`.  The `with tracer.start_as_current_span`
context manager is embedded as the combinator `withSpan`, which opens a span,
runs the body, and always closes the span on exit — setting error status when
the body raised, as the OpenTelemetry SDK context manager does by default.
Wall-clock readings (`time.time()`) and random draws are inputs to the
handlers; `float` arithmetic is modelled over `ℚ`.
-/

namespace OtelDemo

/-- Identity of a Python exception (class name and message); exceptions are
propagated by value, so "the same exception" means equality of this record. -/
structure PyExc where
  excName : String
  msg : String
deriving DecidableEq, Repr

/-- Span status as in the OpenTelemetry data model: `unset` on a normal end
(no handler calls `set_status`), `error` when the body raised. -/
inductive SpanStatus where
  | unset
  | ok
  | error
deriving DecidableEq, Repr

/-- One span record: name, parent (index into the span list of the state),
attributes in insertion order, status, and the number of times `end` was
called on it (`closeCount = 1` means "closed exactly once"). -/
structure Span where
  name : String
  parent : Option Nat
  attrs : List (String × String)
  status : SpanStatus
  closeCount : Nat
deriving DecidableEq, Repr

/-- Metric label sets (the dicts passed to `add` / `record`). -/
abbrev Labels := List (String × String)

/-- The telemetry state mutated by the application:
`spans` is every span ever started (index = start order), `ctx` the stack of
currently active span indices (the ambient "current span" context),
`counters` the aggregated `http_requests_total` points by label set, and
`hist` the values recorded into `http_request_duration_seconds` by label set. -/
structure TelemetryState where
  spans : List Span
  ctx : List Nat
  counters : List (Labels × Nat)
  hist : List (Labels × List ℚ)
deriving DecidableEq, Repr

/-- The state of a process that has served no requests. -/
def initState : TelemetryState := ⟨[], [], [], []⟩

/-- Apply `f` to the element at position `n`, leaving the rest unchanged. -/
def listModify (f : α → α) : Nat → List α → List α
  | _, [] => []
  | 0, a :: rest => f a :: rest
  | n + 1, a :: rest => a :: listModify f n rest

/-- Start a span: append a record whose parent is the ambient current span,
and push its index on the context stack. -/
def openSpan (name : String) (s : TelemetryState) : TelemetryState :=
  { s with
    spans := s.spans ++ [{ name := name, parent := s.ctx.head?, attrs := [],
                           status := SpanStatus.unset, closeCount := 0 }],
    ctx := s.spans.length :: s.ctx }

/-- `span.set_attribute(k, v)` on the span at index `idx`. -/
def setAttr (idx : Nat) (k v : String) (s : TelemetryState) : TelemetryState :=
  { s with spans := listModify (fun sp => { sp with attrs := sp.attrs ++ [(k, v)] }) idx s.spans }

/-- End the span at index `idx` and pop the context stack; when the body
raised (`errored = true`) the SDK records error status before ending. -/
def closeSpan (idx : Nat) (errored : Bool) (s : TelemetryState) : TelemetryState :=
  { s with
    spans := listModify
      (fun sp => { sp with
                   status := (if errored then SpanStatus.error else sp.status),
                   closeCount := sp.closeCount + 1 }) idx s.spans,
    ctx := s.ctx.tail }

/-- `counter.add(v, labels)`: bump the point with exactly these labels. -/
def addToAssoc : List (Labels × Nat) → Labels → Nat → List (Labels × Nat)
  | [], k, v => [(k, v)]
  | (k', v') :: rest, k, v =>
      if k' = k then (k', v' + v) :: rest else (k', v') :: addToAssoc rest k v

/-- The current value of the counter point with exactly these labels. -/
def lookupCount : List (Labels × Nat) → Labels → Nat
  | [], _ => 0
  | (k', v') :: rest, k => if k' = k then v' else lookupCount rest k

/-- `histogram.record(v, labels)`: append a recorded value for these labels. -/
def histAdd : List (Labels × List ℚ) → Labels → ℚ → List (Labels × List ℚ)
  | [], k, v => [(k, [v])]
  | (k', vs) :: rest, k, v =>
      if k' = k then (k', vs ++ [v]) :: rest else (k', vs) :: histAdd rest k v

/-- All values recorded so far for these labels, in order. -/
def histValues : List (Labels × List ℚ) → Labels → List ℚ
  | [], _ => []
  | (k', vs) :: rest, k => if k' = k then vs else histValues rest k

def counterAdd (labels : Labels) (v : Nat) (s : TelemetryState) : TelemetryState :=
  { s with counters := addToAssoc s.counters labels v }

def histRecord (labels : Labels) (v : ℚ) (s : TelemetryState) : TelemetryState :=
  { s with hist := histAdd s.hist labels v }

/-- Value of `http_requests_total` for a label set in a state. -/
def counterValue (s : TelemetryState) (labels : Labels) : Nat :=
  lookupCount s.counters labels

/-- Number of values recorded into `http_request_duration_seconds` for a
label set in a state. -/
def histCount (s : TelemetryState) (labels : Labels) : Nat :=
  (histValues s.hist labels).length

/-- JSON values, as produced by `jsonify`. -/
inductive Json where
  | str (s : String)
  | num (q : ℚ)
  | arr (items : List Json)
  | obj (fields : List (String × Json))

/-- Field lookup on a JSON object (`none` on non-objects / missing keys). -/
def jsonField (j : Json) (k : String) : Option Json :=
  match j with
  | Json.obj fields => fieldLookup fields k
  | _ => none
where fieldLookup : List (String × Json) → String → Option Json
  | [], _ => none
  | (k', v) :: rest, k => if k' = k then some v else fieldLookup rest k

/-- Whether a JSON object has a field named `k`. -/
def jsonHasField (j : Json) (k : String) : Bool :=
  (jsonField j k).isSome

/-- Python's `round(x, 2)` over the rational model of floats: round to the
nearest multiple of `1/100`.  (Python rounds half-to-even while `round` here
rounds half up; the two agree except exactly halfway between two cents, a
difference that affects none of the verified properties.) -/
def round2 (q : ℚ) : ℚ := ((round (q * 100) : ℤ) : ℚ) / 100

/-- Python context-manager semantics of `tracer.start_as_current_span(name)`:
open the span, run the body with the span's index, and always close the span
on exit — propagating the body's exception unchanged and recording error
status on it, as the SDK's `__exit__` does by default. -/
def withSpan (name : String) (body : Nat → TelemetryState → Except PyExc Json × TelemetryState)
    (s : TelemetryState) : Except PyExc Json × TelemetryState :=
  let idx := s.spans.length
  match body idx (openSpan name s) with
  | (Except.ok a, s2) => (Except.ok a, closeSpan idx false s2)
  | (Except.error e, s2) => (Except.error e, closeSpan idx true s2)

/-- Labels passed to `request_counter.add` on the given route. -/
def routeLabels (route : String) : Labels := [("endpoint", route), ("method", "GET")]

/-- Labels passed to `request_duration.record` on the given route. -/
def durationLabels (route : String) : Labels := [("endpoint", route)]

/-- Handler of `GET /` (`home`, app.py lines 64–72): bumps the request
counter and returns the index JSON.  No span is opened and no histogram
value is recorded by this handler. -/
def home (s : TelemetryState) : Json × TelemetryState :=
  (Json.obj [("message", Json.str "Dynatrace OpenTelemetry Lab"),
             ("status", Json.str "running"),
             ("endpoints", Json.arr [Json.str "/", Json.str "/api/hello",
                                     Json.str "/api/data", Json.str "/api/slow"])],
   counterAdd (routeLabels "/") 1 s)

/-- Handler of `GET /api/hello` (`hello`, app.py lines 75–90).  `t0` and `t1`
are the two `time.time()` readings. -/
def hello (t0 t1 : ℚ) (s : TelemetryState) : Except PyExc Json × TelemetryState :=
  withSpan "hello_handler" (fun idx s =>
    let s := setAttr idx "endpoint" "/api/hello" s
    let who := "World"
    let response := Json.obj [("message", Json.str ("Hello, " ++ who ++ "!"))]
    let duration := (t1 - t0) * 1000
    let s := counterAdd (routeLabels "/api/hello") 1 s
    let s := histRecord (durationLabels "/api/hello") duration s
    (Except.ok response, s)) s

/-- Handler of `GET /api/data` (`get_data`, app.py lines 93–117).  `v1 v2 v3`
are the three `random.randint(1, 100)` draws; `sleepExc` is `some e` when the
`time.sleep(0.05)` call raises exception `e` (e.g. an interrupt) and `none`
when it returns normally. -/
def get_data (v1 v2 v3 : ℤ) (sleepExc : Option PyExc) (t0 t1 : ℚ)
    (s : TelemetryState) : Except PyExc Json × TelemetryState :=
  withSpan "get_data" (fun idx s =>
    let s := setAttr idx "endpoint" "/api/data" s
    match withSpan "database.query" (fun jdx s =>
      let s := setAttr jdx "db.system" "postgresql" s
      let s := setAttr jdx "db.operation" "SELECT" s
      match sleepExc with
      | some e => (Except.error e, s)
      | none =>
          (Except.ok (Json.arr
            [Json.obj [("id", Json.num 1), ("value", Json.num (v1 : ℚ))],
             Json.obj [("id", Json.num 2), ("value", Json.num (v2 : ℚ))],
             Json.obj [("id", Json.num 3), ("value", Json.num (v3 : ℚ))]]), s)) s with
    | (Except.error e, s2) => (Except.error e, s2)
    | (Except.ok data, s2) =>
      let duration := (t1 - t0) * 1000
      let s3 := counterAdd (routeLabels "/api/data") 1 s2
      let s4 := histRecord (durationLabels "/api/data") duration s3
      (Except.ok (Json.obj [("data", data)]), s4)) s

/-- Handler of `GET /api/slow` (`slow_endpoint`, app.py lines 120–138).
`sleepTime` is the `random.uniform(1.0, 2.0)` draw; `sleepExc` is `some e`
when `time.sleep(sleep_time)` raises `e`, `none` when it returns. -/
def slow_endpoint (sleepTime : ℚ) (sleepExc : Option PyExc) (t0 t1 : ℚ)
    (s : TelemetryState) : Except PyExc Json × TelemetryState :=
  withSpan "slow_operation" (fun idx s =>
    let s := setAttr idx "endpoint" "/api/slow" s
    match sleepExc with
    | some e => (Except.error e, s)
    | none =>
      let duration := (t1 - t0) * 1000
      let s := counterAdd (routeLabels "/api/slow") 1 s
      let s := histRecord (durationLabels "/api/slow") duration s
      (Except.ok (Json.obj [("message", Json.str "Slow operation completed"),
                            ("duration", Json.num (round2 sleepTime))]), s)) s

/-- One successful inbound request together with the environment inputs
(clock readings, random draws) of its invocation. -/
inductive Request where
  | home
  | hello (t0 t1 : ℚ)
  | data (v1 v2 v3 : ℤ) (t0 t1 : ℚ)
  | slow (sleepTime t0 t1 : ℚ)
deriving DecidableEq

/-- The route a request is addressed to. -/
def Request.route : Request → String
  | Request.home => "/"
  | Request.hello _ _ => "/api/hello"
  | Request.data _ _ _ _ _ => "/api/data"
  | Request.slow _ _ _ => "/api/slow"

/-- Serve one request: the state effect of the invoked handler. -/
def dispatch : Request → TelemetryState → TelemetryState
  | Request.home, s => (home s).2
  | Request.hello t0 t1, s => (hello t0 t1 s).2
  | Request.data v1 v2 v3 t0 t1, s => (get_data v1 v2 v3 none t0 t1 s).2
  | Request.slow sleepTime t0 t1, s => (slow_endpoint sleepTime none t0 t1 s).2

/-- Serve a sequence of requests in order. -/
def run : List Request → TelemetryState → TelemetryState
  | [], s => s
  | r :: rest, s => run rest (dispatch r s)

/-- Configuration read at module load (app.py lines 23–42): `os.getenv(k, d)`
returns the variable's value when set, the default `d` when unset. -/
def getenv (env : List (String × String)) (k d : String) : String :=
  match envLookup env k with
  | some v => v
  | none => d
where envLookup : List (String × String) → String → Option String
  | [], _ => none
  | (k', v) :: rest, k => if k' = k then some v else envLookup rest k

/-- `service.name` resource attribute (app.py line 24). -/
def service_name (env : List (String × String)) : String :=
  getenv env "OTEL_SERVICE_NAME" "demo-app"

/-- OTLP base endpoint (app.py line 30). -/
def otlp_endpoint (env : List (String × String)) : String :=
  getenv env "OTEL_EXPORTER_OTLP_ENDPOINT" "http://localhost:4318"

/-- Endpoint handed to `OTLPSpanExporter` (app.py line 32). -/
def trace_exporter_endpoint (env : List (String × String)) : String :=
  otlp_endpoint env ++ "/v1/traces"

/-- Endpoint handed to `OTLPMetricExporter` (app.py line 38). -/
def metric_exporter_endpoint (env : List (String × String)) : String :=
  otlp_endpoint env ++ "/v1/metrics"

/-- `export_interval_millis` of the `PeriodicExportingMetricReader`
(app.py line 39). -/
def export_interval_millis : Nat := 10000

/-- Modelled from the spec: the `PeriodicExportingMetricReader` (an external
library component, not part of this repository's sources) flushes metric
batches on a fixed timer, so the `n`-th export happens `n` intervals after
startup, independent of request volume. -/
def exportTimeMillis (n : Nat) : Nat := n * export_interval_millis

/-- Registration data of a metric instrument. -/
structure MetricDef where
  metricName : String
  description : String
  unit : String
deriving DecidableEq, Repr

/-- `meter.create_counter` call (app.py lines 45–49). -/
def request_counter_def : MetricDef :=
  { metricName := "http_requests_total", description := "Total HTTP requests", unit := "1" }

/-- `meter.create_histogram` call (app.py lines 51–55). -/
def request_duration_def : MetricDef :=
  { metricName := "http_request_duration_seconds", description := "HTTP request duration",
    unit := "ms" }

lemma listModify_append_zero (f : α → α) (l : List α) (a : α) (r : List α) :
    listModify f l.length (l ++ a :: r) = l ++ f a :: r := by
  induction l with
  | nil => rfl
  | cons x xs ih => simp [listModify, ih]

lemma listModify_append_one (f : α → α) (l : List α) (a b : α) (r : List α) :
    listModify f (l.length + 1) (l ++ a :: b :: r) = l ++ a :: f b :: r := by
  induction l with
  | nil => rfl
  | cons x xs ih => simp [listModify, ih]

lemma getElem_append_len (l : List α) (a : α) (r : List α) :
    (l ++ a :: r)[l.length]? = some a := by
  induction l with
  | nil => simp
  | cons x xs ih => simpa using ih

lemma getElem_append_len_succ (l : List α) (a b : α) (r : List α) :
    (l ++ a :: b :: r)[l.length + 1]? = some b := by
  induction l with
  | nil => simp
  | cons x xs ih => simpa using ih

/-- Net effect of one `hello` invocation. -/
lemma hello_run (t0 t1 : ℚ) (s : TelemetryState) :
    hello t0 t1 s =
      (Except.ok (Json.obj [("message", Json.str "Hello, World!")]),
       { spans := s.spans ++ [{ name := "hello_handler", parent := s.ctx.head?,
                                attrs := [("endpoint", "/api/hello")],
                                status := SpanStatus.unset, closeCount := 1 }],
         ctx := s.ctx,
         counters := addToAssoc s.counters (routeLabels "/api/hello") 1,
         hist := histAdd s.hist (durationLabels "/api/hello") ((t1 - t0) * 1000) }) := by
  simp [hello, withSpan, openSpan, setAttr, closeSpan, counterAdd, histRecord,
        listModify_append_zero]

/-- Net effect of one successful `get_data` invocation. -/
lemma get_data_run (v1 v2 v3 : ℤ) (t0 t1 : ℚ) (s : TelemetryState) :
    get_data v1 v2 v3 none t0 t1 s =
      (Except.ok (Json.obj [("data", Json.arr
         [Json.obj [("id", Json.num 1), ("value", Json.num (v1 : ℚ))],
          Json.obj [("id", Json.num 2), ("value", Json.num (v2 : ℚ))],
          Json.obj [("id", Json.num 3), ("value", Json.num (v3 : ℚ))]])]),
       { spans := s.spans ++
           [{ name := "get_data", parent := s.ctx.head?,
              attrs := [("endpoint", "/api/data")],
              status := SpanStatus.unset, closeCount := 1 },
            { name := "database.query", parent := some s.spans.length,
              attrs := [("db.system", "postgresql"), ("db.operation", "SELECT")],
              status := SpanStatus.unset, closeCount := 1 }],
         ctx := s.ctx,
         counters := addToAssoc s.counters (routeLabels "/api/data") 1,
         hist := histAdd s.hist (durationLabels "/api/data") ((t1 - t0) * 1000) }) := by
  simp [get_data, withSpan, openSpan, setAttr, closeSpan, counterAdd, histRecord,
        listModify_append_zero, listModify_append_one, List.append_assoc]

/-- Net effect of a `get_data` invocation whose `time.sleep` raises `e`. -/
lemma get_data_raise_run (v1 v2 v3 : ℤ) (e : PyExc) (t0 t1 : ℚ) (s : TelemetryState) :
    get_data v1 v2 v3 (some e) t0 t1 s =
      (Except.error e,
       { spans := s.spans ++
           [{ name := "get_data", parent := s.ctx.head?,
              attrs := [("endpoint", "/api/data")],
              status := SpanStatus.error, closeCount := 1 },
            { name := "database.query", parent := some s.spans.length,
              attrs := [("db.system", "postgresql"), ("db.operation", "SELECT")],
              status := SpanStatus.error, closeCount := 1 }],
         ctx := s.ctx,
         counters := s.counters,
         hist := s.hist }) := by
  simp [get_data, withSpan, openSpan, setAttr, closeSpan,
        listModify_append_zero, listModify_append_one, List.append_assoc]

/-- Net effect of one successful `slow_endpoint` invocation. -/
lemma slow_run (sleepTime t0 t1 : ℚ) (s : TelemetryState) :
    slow_endpoint sleepTime none t0 t1 s =
      (Except.ok (Json.obj [("message", Json.str "Slow operation completed"),
                            ("duration", Json.num (round2 sleepTime))]),
       { spans := s.spans ++ [{ name := "slow_operation", parent := s.ctx.head?,
                                attrs := [("endpoint", "/api/slow")],
                                status := SpanStatus.unset, closeCount := 1 }],
         ctx := s.ctx,
         counters := addToAssoc s.counters (routeLabels "/api/slow") 1,
         hist := histAdd s.hist (durationLabels "/api/slow") ((t1 - t0) * 1000) }) := by
  simp [slow_endpoint, withSpan, openSpan, setAttr, closeSpan, counterAdd, histRecord,
        listModify_append_zero]

/-- Net effect of a `slow_endpoint` invocation whose `time.sleep` raises `e`. -/
lemma slow_raise_run (sleepTime : ℚ) (e : PyExc) (t0 t1 : ℚ) (s : TelemetryState) :
    slow_endpoint sleepTime (some e) t0 t1 s =
      (Except.error e,
       { spans := s.spans ++ [{ name := "slow_operation", parent := s.ctx.head?,
                                attrs := [("endpoint", "/api/slow")],
                                status := SpanStatus.error, closeCount := 1 }],
         ctx := s.ctx,
         counters := s.counters,
         hist := s.hist }) := by
  simp [slow_endpoint, withSpan, openSpan, setAttr, closeSpan, listModify_append_zero]

lemma lookupCount_addToAssoc_self (m : List (Labels × Nat)) (k : Labels) (v : Nat) :
    lookupCount (addToAssoc m k v) k = lookupCount m k + v := by
  induction m with
  | nil => simp [addToAssoc, lookupCount]
  | cons p rest ih =>
    obtain ⟨k₀, v₀⟩ := p
    by_cases h : k₀ = k <;> simp [addToAssoc, lookupCount, h, ih]

lemma histValues_histAdd_self (m : List (Labels × List ℚ)) (k : Labels) (v : ℚ) :
    histValues (histAdd m k v) k = histValues m k ++ [v] := by
  induction m with
  | nil => simp [histAdd, histValues]
  | cons p rest ih =>
    obtain ⟨k₀, vs₀⟩ := p
    by_cases h : k₀ = k <;> simp [histAdd, histValues, h, ih]

/-- Every handler bumps `http_requests_total` at its own route labels once. -/
lemma dispatch_counters (r : Request) (s : TelemetryState) :
    (dispatch r s).counters = addToAssoc s.counters (routeLabels r.route) 1 := by
  cases r <;>
    simp [dispatch, Request.route, home, hello_run, get_data_run, slow_run, counterAdd]

lemma dispatch_counterValue (r : Request) (s : TelemetryState) :
    counterValue (dispatch r s) (routeLabels r.route) =
      counterValue s (routeLabels r.route) + 1 := by
  simp [counterValue, dispatch_counters, lookupCount_addToAssoc_self]

/-- Every handler except `home` records one duration sample at its own route. -/
lemma dispatch_histCount (r : Request) (s : TelemetryState) (h : r.route ≠ "/") :
    histCount (dispatch r s) (durationLabels r.route) =
      histCount s (durationLabels r.route) + 1 := by
  cases r with
  | home => exact absurd rfl h
  | hello t0 t1 =>
      simp [dispatch, Request.route, hello_run, histCount, histValues_histAdd_self]
  | data v1 v2 v3 t0 t1 =>
      simp [dispatch, Request.route, get_data_run, histCount, histValues_histAdd_self]
  | slow sleepTime t0 t1 =>
      simp [dispatch, Request.route, slow_run, histCount, histValues_histAdd_self]

lemma take_append_self (l r : List α) : (l ++ r).take l.length = l := by
  induction l with
  | nil => rfl
  | cons x xs ih => simp [ih]

lemma drop_append_self (l r : List α) : (l ++ r).drop l.length = r := by
  induction l with
  | nil => rfl
  | cons x xs ih => simp [ih]

/-- Claim C1: for every invocation of `hello`, `get_data` or `slow_endpoint`,
every span opened during that invocation is closed exactly once by the time
the invocation finishes (`closeCount = 1` on every span the invocation
appended), on the normal return path and on the exceptional exit path alike,
and the spans of earlier invocations are left untouched. -/
theorem handler_spans_closed_once :
    (∀ (t0 t1 : ℚ) (s : TelemetryState),
       (hello t0 t1 s).2.spans.take s.spans.length = s.spans ∧
       ((hello t0 t1 s).2.spans.drop s.spans.length).all
         (fun sp => sp.closeCount == 1) = true) ∧
    (∀ (v1 v2 v3 : ℤ) (sleepExc : Option PyExc) (t0 t1 : ℚ) (s : TelemetryState),
       (get_data v1 v2 v3 sleepExc t0 t1 s).2.spans.take s.spans.length = s.spans ∧
       ((get_data v1 v2 v3 sleepExc t0 t1 s).2.spans.drop s.spans.length).all
         (fun sp => sp.closeCount == 1) = true) ∧
    (∀ (sleepTime : ℚ) (sleepExc : Option PyExc) (t0 t1 : ℚ) (s : TelemetryState),
       (slow_endpoint sleepTime sleepExc t0 t1 s).2.spans.take s.spans.length = s.spans ∧
       ((slow_endpoint sleepTime sleepExc t0 t1 s).2.spans.drop s.spans.length).all
         (fun sp => sp.closeCount == 1) = true) := by
  refine ⟨fun t0 t1 s => ?_, fun v1 v2 v3 sleepExc t0 t1 s => ?_,
          fun sleepTime sleepExc t0 t1 s => ?_⟩
  · simp [hello_run, take_append_self, drop_append_self]
  · cases sleepExc with
    | none => simp [get_data_run, take_append_self, drop_append_self]
    | some e => simp [get_data_raise_run, take_append_self, drop_append_self]
  · cases sleepExc with
    | none => simp [slow_run, take_append_self, drop_append_self]
    | some e => simp [slow_raise_run, take_append_self, drop_append_self]

/-- Claim C2: when the wrapped handler body of `get_data` or `slow_endpoint`
raises an exception `e` (modelled as `time.sleep` raising), the handler still
closes every span it opened — exactly once, with error status — and the very
same exception `e` propagates to the caller unchanged. -/
theorem wrapped_handler_error_propagates :
    (∀ (v1 v2 v3 : ℤ) (e : PyExc) (t0 t1 : ℚ) (s : TelemetryState),
       (get_data v1 v2 v3 (some e) t0 t1 s).1 = Except.error e ∧
       ((get_data v1 v2 v3 (some e) t0 t1 s).2.spans.drop s.spans.length).all
         (fun sp => sp.status == SpanStatus.error && sp.closeCount == 1) = true ∧
       (get_data v1 v2 v3 (some e) t0 t1 s).2.spans.take s.spans.length = s.spans) ∧
    (∀ (sleepTime : ℚ) (e : PyExc) (t0 t1 : ℚ) (s : TelemetryState),
       (slow_endpoint sleepTime (some e) t0 t1 s).1 = Except.error e ∧
       ((slow_endpoint sleepTime (some e) t0 t1 s).2.spans.drop s.spans.length).all
         (fun sp => sp.status == SpanStatus.error && sp.closeCount == 1) = true ∧
       (slow_endpoint sleepTime (some e) t0 t1 s).2.spans.take s.spans.length = s.spans) := by
  refine ⟨fun v1 v2 v3 e t0 t1 s => ?_, fun sleepTime e t0 t1 s => ?_⟩
  · simp [get_data_raise_run, take_append_self, drop_append_self]
  · simp [slow_raise_run, take_append_self, drop_append_self]

/-- Claim C3: for every route of the application and every sequence of `N`
successful requests to that route (from an arbitrary prior state), the
`http_requests_total` counter point carrying that route's labels has grown by
exactly `N`. -/
theorem counter_increments_by_route (route : String) (reqs : List Request)
    (s : TelemetryState)
    (_hroute : route = "/" ∨ route = "/api/hello" ∨ route = "/api/data" ∨ route = "/api/slow")
    (hall : ∀ r ∈ reqs, Request.route r = route) :
    counterValue (run reqs s) (routeLabels route) =
      counterValue s (routeLabels route) + reqs.length := by
  revert hall
  induction reqs generalizing s with
  | nil => intro _; simp [run]
  | cons r rest ih =>
    intro hall
    have hr : Request.route r = route := hall r (List.mem_cons_self r rest)
    have step := dispatch_counterValue r s
    rw [hr] at step
    simp only [run]
    rw [ih (dispatch r s) (fun x hx => hall x (List.mem_cons_of_mem r hx)), step]
    simp [Nat.add_assoc, Nat.add_comm]

/-- Witness for claim C3: two requests to `/api/hello` from a fresh process
raise its counter point from 0 to 2. -/
theorem counter_increments_by_route_witness :
    counterValue (run [Request.hello 0 1, Request.hello 2 3] initState)
      (routeLabels "/api/hello") =
      counterValue initState (routeLabels "/api/hello") + 2 :=
  counter_increments_by_route "/api/hello" [Request.hello 0 1, Request.hello 2 3]
    initState (Or.inr (Or.inl rfl)) (by decide)

/-- Claim C4 (amended): for every route in `/api/hello`, `/api/data`,
`/api/slow` and every sequence of `N` successful requests to that route, the
`http_request_duration_seconds` histogram gains exactly `N` recorded values
labelled with that route's endpoint; the `home` handler of route `/` records
no histogram sample at all. -/
theorem histogram_counts_amended :
    (∀ (route : String) (reqs : List Request) (s : TelemetryState),
       (route = "/api/hello" ∨ route = "/api/data" ∨ route = "/api/slow") →
       (∀ r ∈ reqs, Request.route r = route) →
       histCount (run reqs s) (durationLabels route) =
         histCount s (durationLabels route) + reqs.length) ∧
    (∀ s : TelemetryState, ((home s).2).hist = s.hist) := by
  constructor
  · intro route reqs s hroute hall
    revert hall
    induction reqs generalizing s with
    | nil => intro _; simp [run]
    | cons r rest ih =>
      intro hall
      have hr : Request.route r = route := hall r (List.mem_cons_self r rest)
      have hne : Request.route r ≠ "/" := by
        rw [hr]
        rcases hroute with h | h | h <;> subst h <;> decide
      have step := dispatch_histCount r s hne
      rw [hr] at step
      simp only [run]
      rw [ih (dispatch r s) (fun x hx => hall x (List.mem_cons_of_mem r hx)), step]
      simp [Nat.add_assoc, Nat.add_comm]
  · intro s
    rfl

/-- Witness for claim C4 (amended): one request to `/api/data` from a fresh
process records exactly one duration sample for that endpoint. -/
theorem histogram_counts_amended_witness :
    histCount (run [Request.data 1 2 3 0 1] initState) (durationLabels "/api/data") =
      histCount initState (durationLabels "/api/data") + 1 :=
  histogram_counts_amended.1 "/api/data" [Request.data 1 2 3 0 1] initState
    (Or.inr (Or.inl rfl)) (by decide)

/-- Counterexample to claim C4 as stated: the home route `/` is served by the
application, yet after one successful request to it the histogram has gained
zero recorded values for endpoint `/`, not one — `home` never calls
`request_duration.record`. -/
theorem histogram_counts_home_counterexample :
    ¬ (histCount (run [Request.home] initState) (durationLabels "/") =
       histCount initState (durationLabels "/") + 1) := by
  decide

/-- Claim C5: every `hello` invocation returns exactly the JSON body
`{"message": "Hello, World!"}`, increments the `http_requests_total` point
labelled `endpoint="/api/hello"` by exactly 1, and records exactly one
histogram sample for that endpoint. -/
theorem hello_scenario (t0 t1 : ℚ) (s : TelemetryState) :
    (hello t0 t1 s).1 = Except.ok (Json.obj [("message", Json.str "Hello, World!")]) ∧
    counterValue (hello t0 t1 s).2 (routeLabels "/api/hello") =
      counterValue s (routeLabels "/api/hello") + 1 ∧
    histCount (hello t0 t1 s).2 (durationLabels "/api/hello") =
      histCount s (durationLabels "/api/hello") + 1 := by
  refine ⟨?_, ?_, ?_⟩ <;>
    simp [hello_run, counterValue, histCount, lookupCount_addToAssoc_self,
          histValues_histAdd_self]

/-- Claim C6: every successful `get_data` invocation responds with a JSON
object whose `data` field is an array of exactly 3 objects, each carrying an
`id` and a `value` field, and records a span named `database.query` as a
child of the span named `get_data` opened by the same invocation. -/
theorem get_data_scenario (v1 v2 v3 : ℤ) (t0 t1 : ℚ) (s : TelemetryState) :
    (∃ j items, (get_data v1 v2 v3 none t0 t1 s).1 = Except.ok j ∧
       jsonField j "data" = some (Json.arr items) ∧ items.length = 3 ∧
       items.all (fun x => jsonHasField x "id" && jsonHasField x "value") = true) ∧
    (∃ outer inner,
       ((get_data v1 v2 v3 none t0 t1 s).2).spans[s.spans.length]? = some outer ∧
       ((get_data v1 v2 v3 none t0 t1 s).2).spans[s.spans.length + 1]? = some inner ∧
       outer.name = "get_data" ∧ inner.name = "database.query" ∧
       inner.parent = some s.spans.length) := by
  simp only [get_data_run]
  constructor
  · refine ⟨_, [Json.obj [("id", Json.num 1), ("value", Json.num (v1 : ℚ))],
               Json.obj [("id", Json.num 2), ("value", Json.num (v2 : ℚ))],
               Json.obj [("id", Json.num 3), ("value", Json.num (v3 : ℚ))]],
             rfl, ?_, rfl, ?_⟩
    · simp [jsonField, jsonField.fieldLookup]
    · simp [jsonHasField, jsonField, jsonField.fieldLookup]
  · exact ⟨_, _, getElem_append_len _ _ _, getElem_append_len_succ _ _ _ _, rfl, rfl, rfl⟩

/-- Claim C7: given a sleep draw in `[1.0, 2.0]`, the `duration` field of the
JSON returned by `slow_endpoint` is that draw rounded to 2 decimal places and
lies within the closed interval `[1.0, 2.0]`. -/
theorem slow_duration_in_range (sleepTime t0 t1 : ℚ) (s : TelemetryState)
    (h1 : 1 ≤ sleepTime) (h2 : sleepTime ≤ 2) :
    ∃ j, (slow_endpoint sleepTime none t0 t1 s).1 = Except.ok j ∧
      jsonField j "duration" = some (Json.num (round2 sleepTime)) ∧
      1 ≤ round2 sleepTime ∧ round2 sleepTime ≤ 2 := by
  have hlo : (100 : ℤ) ≤ round (sleepTime * 100) := by
    rw [round_eq, Int.le_floor]
    push_cast
    linarith
  have hhi : round (sleepTime * 100) ≤ 200 := by
    rw [round_eq]
    have hfl : (⌊sleepTime * 100 + 1 / 2⌋ : ℤ) < 201 := by
      rw [Int.floor_lt]
      push_cast
      linarith
    omega
  refine ⟨_, by rw [slow_run], by simp [jsonField, jsonField.fieldLookup], ?_, ?_⟩
  · unfold round2
    rw [le_div_iff₀ (by norm_num : (0 : ℚ) < 100)]
    have : ((100 : ℤ) : ℚ) ≤ ((round (sleepTime * 100) : ℤ) : ℚ) := by exact_mod_cast hlo
    push_cast at this ⊢
    linarith
  · unfold round2
    rw [div_le_iff₀ (by norm_num : (0 : ℚ) < 100)]
    have : ((round (sleepTime * 100) : ℤ) : ℚ) ≤ ((200 : ℤ) : ℚ) := by exact_mod_cast hhi
    push_cast at this ⊢
    linarith

/-- Witness for claim C7: the draw `1.5` yields a `duration` field of
`round2 1.5` inside `[1, 2]`. -/
theorem slow_duration_in_range_witness :
    ∃ j, (slow_endpoint (3 / 2) none 0 (3 / 2) initState).1 = Except.ok j ∧
      jsonField j "duration" = some (Json.num (round2 (3 / 2))) ∧
      1 ≤ round2 ((3 : ℚ) / 2) ∧ round2 ((3 : ℚ) / 2) ≤ 2 :=
  slow_duration_in_range (3 / 2) 0 (3 / 2) initState (by norm_num) (by norm_num)

/-- Claim C8 (amended): the service name and exporter endpoint are read from
`OTEL_SERVICE_NAME` and `OTEL_EXPORTER_OTLP_ENDPOINT`; a missing (unset)
variable falls back to the documented default (`demo-app`,
`http://localhost:4318`), while any set value — valid or not — is used
verbatim; reading configuration is total and never fails startup. -/
theorem env_config_defaults (env : List (String × String)) :
    (getenv.envLookup env "OTEL_SERVICE_NAME" = none →
       service_name env = "demo-app") ∧
    (∀ v, getenv.envLookup env "OTEL_SERVICE_NAME" = some v →
       service_name env = v) ∧
    (getenv.envLookup env "OTEL_EXPORTER_OTLP_ENDPOINT" = none →
       otlp_endpoint env = "http://localhost:4318") ∧
    (∀ v, getenv.envLookup env "OTEL_EXPORTER_OTLP_ENDPOINT" = some v →
       otlp_endpoint env = v) := by
  refine ⟨fun h => ?_, fun v h => ?_, fun h => ?_, fun v h => ?_⟩ <;>
    simp [service_name, otlp_endpoint, getenv, h]

/-- Witness for claim C8 (amended): an empty environment yields both
defaults, and a set endpoint is taken verbatim. -/
theorem env_config_defaults_witness :
    service_name [] = "demo-app" ∧
    otlp_endpoint [("OTEL_EXPORTER_OTLP_ENDPOINT", "http://collector:4318")] =
      "http://collector:4318" :=
  ⟨(env_config_defaults []).1 rfl,
   (env_config_defaults [("OTEL_EXPORTER_OTLP_ENDPOINT", "http://collector:4318")]).2.2.2
     "http://collector:4318" (by decide)⟩

/-- Counterexample to claim C8 as stated: `os.getenv` performs no validity
check, so a set-but-invalid endpoint value (here the non-URL string
`"not a url"`) is used verbatim instead of falling back to the documented
default `http://localhost:4318`. -/
theorem invalid_endpoint_used_verbatim :
    otlp_endpoint [("OTEL_EXPORTER_OTLP_ENDPOINT", "not a url")] = "not a url" ∧
    "not a url" ≠ "http://localhost:4318" := by
  exact ⟨by decide, by decide⟩

/-- Claim C9: for every configured base endpoint, the span exporter is
addressed at base + `/v1/traces` and the metric exporter at base +
`/v1/metrics`, and metric batches are exported on a fixed periodic interval
of 10000 ms (10 s): consecutive export instants are always 10000 ms apart,
independent of request volume. -/
theorem exporter_paths_and_interval (env : List (String × String)) (n : Nat) :
    trace_exporter_endpoint env = otlp_endpoint env ++ "/v1/traces" ∧
    metric_exporter_endpoint env = otlp_endpoint env ++ "/v1/metrics" ∧
    export_interval_millis = 10000 ∧
    exportTimeMillis (n + 1) - exportTimeMillis n = 10000 := by
  refine ⟨rfl, rfl, rfl, ?_⟩
  simp [exportTimeMillis, export_interval_millis, Nat.succ_mul]

/-- Claim C10: the value recorded into the histogram registered under the
name `http_request_duration_seconds` (unit `"ms"`) is the elapsed time
multiplied by 1000 in every handler invocation that records a duration —
`hello`, `get_data` and `slow_endpoint` — whereas the `duration` field of
`slow_endpoint`'s response is the sleep draw in seconds (rounded to
2 decimals) — so whenever the elapsed time equals a draw exact at 2 decimals,
the recorded value is exactly 1000 times the response field. -/
theorem duration_unit_factor_mismatch (v1 v2 v3 : ℤ) (sleepTime t0 t1 : ℚ)
    (s : TelemetryState) :
    histValues ((slow_endpoint sleepTime none t0 t1 s).2).hist (durationLabels "/api/slow") =
      histValues s.hist (durationLabels "/api/slow") ++ [(t1 - t0) * 1000] ∧
    histValues ((hello t0 t1 s).2).hist (durationLabels "/api/hello") =
      histValues s.hist (durationLabels "/api/hello") ++ [(t1 - t0) * 1000] ∧
    histValues ((get_data v1 v2 v3 none t0 t1 s).2).hist (durationLabels "/api/data") =
      histValues s.hist (durationLabels "/api/data") ++ [(t1 - t0) * 1000] ∧
    request_duration_def.metricName = "http_request_duration_seconds" ∧
    request_duration_def.unit = "ms" ∧
    (∃ j, (slow_endpoint sleepTime none t0 t1 s).1 = Except.ok j ∧
       jsonField j "duration" = some (Json.num (round2 sleepTime))) ∧
    (t1 - t0 = sleepTime → round2 sleepTime = sleepTime →
       (t1 - t0) * 1000 = 1000 * round2 sleepTime) := by
  refine ⟨?_, ?_, ?_, rfl, rfl,
          ⟨_, by rw [slow_run], by simp [jsonField, jsonField.fieldLookup]⟩,
          fun ht hr => ?_⟩
  · simp [slow_run, histValues_histAdd_self]
  · simp [hello_run, histValues_histAdd_self]
  · simp [get_data_run, histValues_histAdd_self]
  · rw [ht, hr]
    ring

/-- Witness for claim C10: with an elapsed time of exactly the draw `1.5`,
the histogram receives `1500` while the response field reads `1.5`. -/
theorem duration_unit_factor_mismatch_witness :
    ((5 : ℚ) / 2 - 1) * 1000 = 1000 * round2 (3 / 2) :=
  (duration_unit_factor_mismatch 1 2 3 (3 / 2) 1 (5 / 2) initState).2.2.2.2.2.2
    (by norm_num) (by norm_num [round2, round_eq])

end OtelDemo
